import Mathlib

/-!
# Verification of `null` package `bytes.go`

Shallow embedding of the Go source `src/bytes.go` (package `null`), a
nullable byte-slice holder with JSON, text and SQL-driver adapters.

Modelling conventions:
* A Go byte slice (`[]byte`) is `Option (List Nat)`: `none` is the nil
  slice, `some l` a non-nil slice with contents `l`.  Go has
  `len(nil) == 0`, captured by `GoBytes.len`.
* A Go `error` result is `Option String`: `none` is the nil error.
* A `driver.Value` (`interface{}`) is the inductive `DriverValue`; the
  nil interface is `DriverValue.null`.  A non-nil interface holding a
  nil `[]byte` is `DriverValue.bytes none`, distinct from the nil
  interface, as in Go.
* Methods with pointer receivers become functions returning the updated
  receiver together with the Go return values.
-/

/-- A Go `[]byte`: `none` is the nil slice, `some l` a non-nil slice. -/
abbrev GoBytes := Option (List Nat)

/-- Go `len` on a byte slice: the nil slice has length zero. -/
def GoBytes.len : GoBytes → Nat
  | none => 0
  | some l => l.length

/-- `NullBytes` from `bytes.go`: a nullable byte slice. -/
structure NullBytes where
  bytes : GoBytes
  valid : Bool
  deriving DecidableEq, Repr

/-- `Bytes` from `bytes.go`: wraps an embedded `NullBytes`. -/
structure Bytes extends NullBytes
  deriving DecidableEq, Repr

/-- `NewBytes(b, valid)` from `bytes.go`: holder with exactly the given
state. -/
def NewBytes (b : GoBytes) (valid : Bool) : Bytes :=
  { bytes := b, valid := valid }

/-- `BytesFrom(b)` from `bytes.go`: null iff the length is zero. -/
def BytesFrom (b : GoBytes) : Bytes :=
  NewBytes b (b.len != 0)

/-- `BytesFromPtr(b)` from `bytes.go`: the argument is a `*[]byte`,
modelled as `Option GoBytes` (`none` is the nil pointer). -/
def BytesFromPtr (b : Option GoBytes) : Bytes :=
  match b with
  | none => NewBytes none false
  | some s => if s.len = 0 then NewBytes none false else NewBytes s true

/-- `Bytes.UnmarshalJSON` from `bytes.go`: empty input clears the data
and invalidates; otherwise the input bytes are copied verbatim
(`append(b.Bytes[0:0], data...)` on a non-empty `data` yields a non-nil
slice with exactly the contents of `data`).  Always returns a nil
error. -/
def Bytes.UnmarshalJSON (b : Bytes) (data : GoBytes) : Bytes × Option String :=
  if data.len = 0 then
    ({ b with bytes := none, valid := false }, none)
  else
    ({ b with bytes := some (data.getD []), valid := true }, none)

/-- `Bytes.UnmarshalText` from `bytes.go`: empty input only clears the
valid flag (the data field is untouched); otherwise the input bytes are
copied verbatim and the flag is set.  Always returns a nil error. -/
def Bytes.UnmarshalText (b : Bytes) (text : GoBytes) : Bytes × Option String :=
  if text.len = 0 then
    ({ b with valid := false }, none)
  else
    ({ b with bytes := some (text.getD []), valid := true }, none)

/-- The 4-byte ASCII literal `null` emitted by `MarshalJSON`. -/
def nullLiteral : List Nat := [110, 117, 108, 108]

/-- `Bytes.MarshalJSON` from `bytes.go`: the 4-byte `null` token when
invalid, otherwise the data verbatim.  Always returns a nil error. -/
def Bytes.MarshalJSON (b : Bytes) : GoBytes × Option String :=
  if !b.valid then (some nullLiteral, none)
  else (b.bytes, none)

/-- `Bytes.MarshalText` from `bytes.go`: the nil slice when invalid,
otherwise the data verbatim.  Always returns a nil error. -/
def Bytes.MarshalText (b : Bytes) : GoBytes × Option String :=
  if !b.valid then (none, none)
  else (b.bytes, none)

/-- `Bytes.SetValid` from `bytes.go`: replaces the data and forces the
valid flag. -/
def Bytes.SetValid (b : Bytes) (n : GoBytes) : Bytes :=
  { b with bytes := n, valid := true }

/-- `Bytes.Ptr` from `bytes.go`: a pointer to the data if valid, else
the nil pointer. -/
def Bytes.Ptr (b : Bytes) : Option GoBytes :=
  if !b.valid then none
  else some b.bytes

/-- `Bytes.IsZero` from `bytes.go`: true for null `Bytes`. -/
def Bytes.IsZero (b : Bytes) : Bool :=
  !b.valid

/-- A `driver.Value` handed to `Scan` or produced by `Value`.
`null` is the nil interface (the SQL absence marker); the other
constructors are driver-native value kinds. -/
inductive DriverValue where
  | null
  | bytes (b : GoBytes)
  | str (s : List Nat)
  | int64 (i : Int)
  deriving DecidableEq, Repr

/-- Modelled from the spec: the generic best-effort type-conversion
routine `convert.ConvertAssign` (package
`gopkg.in/nullbio/null.v4/convert`, whose source is not part of this
repository) with a `*[]byte` destination.  Per the spec it is a small
dispatch over the driver value kinds: nil and byte-sequence and string
sources convert, an incompatible kind (here `int64`) fails with a
conversion error and is the only failure.  Returns the new destination
contents together with the Go error. -/
def ConvertAssign (dest : GoBytes) (value : DriverValue) : GoBytes × Option String :=
  match value with
  | .null => (none, none)
  | .bytes b => (b, none)
  | .str s => (some s, none)
  | .int64 _ => (dest, some "ConversionError: unsupported driver value")

/-- `NullBytes.Scan` from `bytes.go`: a nil driver value sets the data
to an empty non-nil slice and clears the flag; otherwise the flag is set
first and the conversion routine is delegated to, its error returned
as-is. -/
def NullBytes.Scan (n : NullBytes) (value : DriverValue) : NullBytes × Option String :=
  if value = DriverValue.null then
    ({ n with bytes := some [], valid := false }, none)
  else
    let n1 := { n with valid := true }
    let r := ConvertAssign n1.bytes value
    ({ n1 with bytes := r.1 }, r.2)

/-- `NullBytes.Value` from `bytes.go`: the nil driver value when
invalid, otherwise the data as a driver byte-sequence value.  Always
returns a nil error. -/
def NullBytes.Value (n : NullBytes) : DriverValue × Option String :=
  if !n.valid then (DriverValue.null, none)
  else (DriverValue.bytes n.bytes, none)

/-! ## Theorems -/

/-- C1, counterexample: the claim says decoding the 4-byte null token
back via `UnmarshalJSON` produces a holder with `valid = false`; on the
code, `MarshalJSON` of an invalid holder does produce the 4-byte token,
but `UnmarshalJSON` of that token is the non-empty branch and yields
`valid = true` with the token bytes as data. -/
theorem c1_null_roundtrip_counterexample :
    (NewBytes none false).MarshalJSON.1 = some nullLiteral ∧
    ((NewBytes none false).UnmarshalJSON
        (NewBytes none false).MarshalJSON.1).1.valid = true := by
  decide

/-- C1, amended: encoding an invalid holder via `MarshalJSON` produces
the 4-byte null token with no error; decoding that token back via
`UnmarshalJSON` produces a holder with `valid = true` and data equal to
the token bytes (`UnmarshalJSON` yields `valid = false` only on empty
input). -/
theorem c1_null_token_roundtrip (b h : Bytes) (hb : b.valid = false) :
    b.MarshalJSON = (some nullLiteral, none) ∧
    (h.UnmarshalJSON (some nullLiteral)).1.valid = true ∧
    (h.UnmarshalJSON (some nullLiteral)).1.bytes = some nullLiteral ∧
    (h.UnmarshalJSON none).1.valid = false := by
  refine ⟨?_, ?_, ?_, ?_⟩ <;>
    simp [Bytes.MarshalJSON, Bytes.UnmarshalJSON, GoBytes.len, nullLiteral, hb]

/-- C1, witness for `c1_null_token_roundtrip` at concrete holders. -/
theorem c1_null_token_roundtrip_witness :
    (NewBytes (some [9]) false).MarshalJSON = (some nullLiteral, none) ∧
    ((NewBytes none false).UnmarshalJSON (some nullLiteral)).1.valid = true ∧
    ((NewBytes none false).UnmarshalJSON (some nullLiteral)).1.bytes = some nullLiteral ∧
    ((NewBytes none false).UnmarshalJSON none).1.valid = false :=
  c1_null_token_roundtrip (NewBytes (some [9]) false) (NewBytes none false) rfl

/-- C2, counterexample: the claim quantifies over every valid holder,
including empty data; for the valid holder with a non-nil empty data
slice, `MarshalJSON` emits that empty slice and `UnmarshalJSON` of it
takes the empty branch, yielding `valid = false`, not `valid = true`. -/
theorem c2_structured_roundtrip_counterexample :
    (NewBytes (some []) true).valid = true ∧
    ((NewBytes (some []) true).UnmarshalJSON
        (NewBytes (some []) true).MarshalJSON.1).1.valid = false := by
  decide

/-- C2, amended: for every holder `h` with `valid = true` and non-empty
data, decoding the bytes produced by `MarshalJSON` via `UnmarshalJSON`
(into any holder) yields `valid = true` and data byte-identical to the
data of `h`; when the data of `h` is empty (nil or zero-length),
decoding the encoded bytes yields `valid = false` instead. -/
theorem c2_structured_roundtrip (h g : Bytes) (hv : h.valid = true) :
    (h.bytes.len ≠ 0 →
      (g.UnmarshalJSON h.MarshalJSON.1).1.valid = true ∧
      (g.UnmarshalJSON h.MarshalJSON.1).1.bytes = h.bytes) ∧
    (h.bytes.len = 0 →
      (g.UnmarshalJSON h.MarshalJSON.1).1.valid = false) := by
  rcases hb : h.bytes with _ | l <;>
    simp [Bytes.MarshalJSON, Bytes.UnmarshalJSON, GoBytes.len, hv, hb]
  by_cases h0 : l = [] <;> simp [h0]

/-- C2, witness for `c2_structured_roundtrip` at a concrete valid
holder with non-empty data. -/
theorem c2_structured_roundtrip_witness :
    ((NewBytes (some [1, 2]) true).bytes.len ≠ 0 →
      (((NewBytes none false).UnmarshalJSON
          (NewBytes (some [1, 2]) true).MarshalJSON.1).1.valid = true ∧
       ((NewBytes none false).UnmarshalJSON
          (NewBytes (some [1, 2]) true).MarshalJSON.1).1.bytes =
         (NewBytes (some [1, 2]) true).bytes)) ∧
    ((NewBytes (some [1, 2]) true).bytes.len = 0 →
      (((NewBytes none false).UnmarshalJSON
          (NewBytes (some [1, 2]) true).MarshalJSON.1).1.valid = false)) :=
  c2_structured_roundtrip (NewBytes (some [1, 2]) true) (NewBytes none false) rfl

/-- C3: `Scan` of the nil driver value sets the data to the empty
non-nil slice, clears the valid flag and succeeds; for any other driver
value the valid flag is set to true regardless of how the conversion
goes, and the error of the conversion routine (a `ConversionError` on
an incompatible kind) is returned to the caller unchanged, so a failed
conversion leaves the holder with `valid = true`. -/
theorem c3_scan_behavior (n : NullBytes) (v : DriverValue)
    (hv : v ≠ DriverValue.null) :
    n.Scan DriverValue.null = (⟨some [], false⟩, none) ∧
    (n.Scan v).1.valid = true ∧
    (n.Scan v).2 = (ConvertAssign n.bytes v).2 := by
  refine ⟨?_, ?_, ?_⟩ <;> simp [NullBytes.Scan, hv]

/-- C3, witness for `c3_scan_behavior` at a concrete holder and the
incompatible driver value kind, where the conversion fails. -/
theorem c3_scan_behavior_witness :
    (NullBytes.mk (some [7]) false).Scan DriverValue.null = (⟨some [], false⟩, none) ∧
    ((NullBytes.mk (some [7]) false).Scan (DriverValue.int64 3)).1.valid = true ∧
    ((NullBytes.mk (some [7]) false).Scan (DriverValue.int64 3)).2 =
      (ConvertAssign (some [7]) (DriverValue.int64 3)).2 :=
  c3_scan_behavior (NullBytes.mk (some [7]) false) (DriverValue.int64 3) (by decide)

/-- C4: `UnmarshalText` on empty input (nil or zero-length) sets
`valid = false` and leaves every other part of the holder exactly as it
was, returning a nil error; on non-empty input it copies the input
bytes verbatim into the data, sets `valid = true`, and returns a nil
error. -/
theorem c4_unmarshal_text (b : Bytes) (t : GoBytes) :
    (t.len = 0 → b.UnmarshalText t = ({ b with valid := false }, none)) ∧
    (t.len ≠ 0 → b.UnmarshalText t = ({ b with bytes := t, valid := true }, none)) := by
  rcases t with _ | l <;> simp [Bytes.UnmarshalText, GoBytes.len]

/-- C4, witness for `c4_unmarshal_text` at a concrete holder and a
concrete non-empty input. -/
theorem c4_unmarshal_text_witness :
    (GoBytes.len (some [5]) = 0 →
      (NewBytes (some [1]) true).UnmarshalText (some [5]) =
        ({ NewBytes (some [1]) true with valid := false }, none)) ∧
    (GoBytes.len (some [5]) ≠ 0 →
      (NewBytes (some [1]) true).UnmarshalText (some [5]) =
        ({ NewBytes (some [1]) true with bytes := some [5], valid := true }, none)) :=
  c4_unmarshal_text (NewBytes (some [1]) true) (some [5])

/-- C5: `UnmarshalJSON` on an empty input span (nil or zero-length)
sets `valid = false` and clears the data to the nil slice; on non-empty
input it copies the input bytes verbatim into the data and sets
`valid = true`; and for every possible input it returns a nil error. -/
theorem c5_unmarshal_json (b : Bytes) (d : GoBytes) :
    (d.len = 0 → (b.UnmarshalJSON d).1 = { b with bytes := none, valid := false }) ∧
    (d.len ≠ 0 →
      (b.UnmarshalJSON d).1.bytes = d ∧ (b.UnmarshalJSON d).1.valid = true) ∧
    (b.UnmarshalJSON d).2 = none := by
  rcases d with _ | l <;> simp [Bytes.UnmarshalJSON, GoBytes.len]
  by_cases h0 : l = [] <;> simp [h0]

/-- C5, witness for `c5_unmarshal_json` at a concrete holder and a
concrete non-empty input. -/
theorem c5_unmarshal_json_witness :
    (GoBytes.len (some [2, 3]) = 0 →
      ((NewBytes (some [1]) false).UnmarshalJSON (some [2, 3])).1 =
        { NewBytes (some [1]) false with bytes := none, valid := false }) ∧
    (GoBytes.len (some [2, 3]) ≠ 0 →
      ((NewBytes (some [1]) false).UnmarshalJSON (some [2, 3])).1.bytes = some [2, 3] ∧
      ((NewBytes (some [1]) false).UnmarshalJSON (some [2, 3])).1.valid = true) ∧
    ((NewBytes (some [1]) false).UnmarshalJSON (some [2, 3])).2 = none :=
  c5_unmarshal_json (NewBytes (some [1]) false) (some [2, 3])

/-- C6: `Value` of an invalid holder yields the nil driver value (the
absence marker) and never a byte-sequence value, regardless of what the
data contains; `Value` of a valid holder yields the data as a driver
byte-sequence value; and the returned error is always nil. -/
theorem c6_value (n : NullBytes) :
    (n.valid = false →
      n.Value = (DriverValue.null, none) ∧
      ∀ bs : GoBytes, n.Value.1 ≠ DriverValue.bytes bs) ∧
    (n.valid = true → n.Value = (DriverValue.bytes n.bytes, none)) ∧
    n.Value.2 = none := by
  rcases n with ⟨bs, _ | _⟩ <;> simp [NullBytes.Value]

/-- C6, witness for `c6_value` at a concrete invalid holder that still
holds stale bytes. -/
theorem c6_value_witness :
    ((NullBytes.mk (some [4]) false).valid = false →
      (NullBytes.mk (some [4]) false).Value = (DriverValue.null, none) ∧
      ∀ bs : GoBytes, (NullBytes.mk (some [4]) false).Value.1 ≠ DriverValue.bytes bs) ∧
    ((NullBytes.mk (some [4]) false).valid = true →
      (NullBytes.mk (some [4]) false).Value =
        (DriverValue.bytes (NullBytes.mk (some [4]) false).bytes, none)) ∧
    (NullBytes.mk (some [4]) false).Value.2 = none :=
  c6_value (NullBytes.mk (some [4]) false)

/-- C7, counterexample: the claim says the absent result emitted for an
invalid holder is distinguishable from the encoded output of any valid
holder holding an empty value; but the valid holder whose data is the
nil slice is such a holder (zero-length data), and `MarshalText` of it
returns exactly the same result as for an invalid holder. -/
theorem c7_marshal_text_counterexample :
    (NewBytes none true).valid = true ∧
    (NewBytes none true).bytes.len = 0 ∧
    (NewBytes none true).MarshalText = (NewBytes (some [1]) false).MarshalText := by
  decide

/-- C7, amended: `MarshalText` of an invalid holder emits the absent
(nil) result with no error and `MarshalText` of a valid holder emits
its data verbatim with no error, so it never fails; the absent result
is distinguishable from the output of a valid holder holding a non-nil
empty sequence, but coincides with the output of a valid holder whose
data is the nil slice. -/
theorem c7_marshal_text (b g : Bytes) (hb : b.valid = false) (hg : g.valid = true) :
    b.MarshalText = (none, none) ∧
    g.MarshalText = (g.bytes, none) ∧
    (g.bytes = some [] → g.MarshalText.1 ≠ b.MarshalText.1) ∧
    (g.bytes = none → g.MarshalText.1 = b.MarshalText.1) := by
  refine ⟨by simp [Bytes.MarshalText, hb], by simp [Bytes.MarshalText, hg], ?_, ?_⟩
  · intro h; simp [Bytes.MarshalText, hb, hg, h]
  · intro h; simp [Bytes.MarshalText, hb, hg, h]

/-- C7, witness for `c7_marshal_text` at a concrete invalid holder and
a concrete valid holder holding the non-nil empty sequence. -/
theorem c7_marshal_text_witness :
    (NewBytes (some [5]) false).MarshalText = (none, none) ∧
    (NewBytes (some []) true).MarshalText = ((NewBytes (some []) true).bytes, none) ∧
    ((NewBytes (some []) true).bytes = some [] →
      (NewBytes (some []) true).MarshalText.1 ≠ (NewBytes (some [5]) false).MarshalText.1) ∧
    ((NewBytes (some []) true).bytes = none →
      (NewBytes (some []) true).MarshalText.1 = (NewBytes (some [5]) false).MarshalText.1) :=
  c7_marshal_text (NewBytes (some [5]) false) (NewBytes (some []) true) rfl rfl

/-- C8: `BytesFrom b` is valid exactly when `b` has non-zero length and
always holds `b` itself as data; `BytesFromPtr r` on the nil pointer or
a pointer to a zero-length slice yields the invalid holder with nil
data, and on a pointer to a non-empty slice yields a valid holder whose
data has the bytes of the referenced slice. -/
theorem c8_constructors (b : GoBytes) (r : Option GoBytes) :
    ((BytesFrom b).valid = true ↔ b.len ≠ 0) ∧
    (BytesFrom b).bytes = b ∧
    (r = none → BytesFromPtr r = NewBytes none false) ∧
    (∀ s, r = some s → s.len = 0 → BytesFromPtr r = NewBytes none false) ∧
    (∀ s, r = some s → s.len ≠ 0 →
      (BytesFromPtr r).valid = true ∧ (BytesFromPtr r).bytes = s) := by
  refine ⟨?_, ?_, ?_, ?_, ?_⟩
  · simp [BytesFrom, NewBytes]
  · simp [BytesFrom, NewBytes]
  · rintro rfl; simp [BytesFromPtr]
  · rintro s rfl h0; simp [BytesFromPtr, h0]
  · rintro s rfl h0; simp [BytesFromPtr, h0, NewBytes]

/-- C8, witness for `c8_constructors` at a concrete non-empty slice and
a concrete pointer to a non-empty slice. -/
theorem c8_constructors_witness :
    ((BytesFrom (some [1, 2, 3])).valid = true ↔ GoBytes.len (some [1, 2, 3]) ≠ 0) ∧
    (BytesFrom (some [1, 2, 3])).bytes = some [1, 2, 3] ∧
    ((some (some [9]) : Option GoBytes) = none →
      BytesFromPtr (some (some [9])) = NewBytes none false) ∧
    (∀ s, (some (some [9]) : Option GoBytes) = some s → s.len = 0 →
      BytesFromPtr (some (some [9])) = NewBytes none false) ∧
    (∀ s, (some (some [9]) : Option GoBytes) = some s → s.len ≠ 0 →
      (BytesFromPtr (some (some [9]))).valid = true ∧
      (BytesFromPtr (some (some [9]))).bytes = s) :=
  c8_constructors (some [1, 2, 3]) (some (some [9]))

/-- C9: in every state of the holder (so in particular in every state
reachable through the constructors, the decode adapters and
`SetValid`), `IsZero` returns true exactly when the valid flag is
false, and its result does not depend on the data: replacing the data
by anything while keeping the flag leaves `IsZero` unchanged. -/
theorem c9_iszero_consistency (b : Bytes) :
    (b.IsZero = true ↔ b.valid = false) ∧
    ∀ d : GoBytes, (NewBytes d b.valid).IsZero = b.IsZero := by
  refine ⟨?_, ?_⟩ <;> simp [Bytes.IsZero, NewBytes]

/-- C9, witness for `c9_iszero_consistency` at a concrete holder with
stale data and a cleared flag. -/
theorem c9_iszero_consistency_witness :
    ((NewBytes (some [8]) false).IsZero = true ↔ (NewBytes (some [8]) false).valid = false) ∧
    ∀ d : GoBytes, (NewBytes d (NewBytes (some [8]) false).valid).IsZero =
      (NewBytes (some [8]) false).IsZero :=
  c9_iszero_consistency (NewBytes (some [8]) false)

/-- C10: a holder with `valid = true` and empty data is reachable
through the public interface (`NewBytes nil true` builds one, and
`SetValid nil` on any holder builds one), and for every holder with
`valid = true` and zero-length data `MarshalJSON` returns its data —
a zero-length output that is neither the 4-byte null token nor any
bytes — with a nil error. -/
theorem c10_valid_empty_marshal (b c : Bytes) (hv : b.valid = true)
    (he : b.bytes.len = 0) :
    (NewBytes none true).valid = true ∧
    (NewBytes none true).bytes.len = 0 ∧
    (c.SetValid none).valid = true ∧
    (c.SetValid none).bytes.len = 0 ∧
    b.MarshalJSON = (b.bytes, none) ∧
    b.MarshalJSON.1.len = 0 ∧
    b.MarshalJSON.1 ≠ some nullLiteral := by
  refine ⟨by simp [NewBytes], by simp [NewBytes, GoBytes.len], ?_, ?_, ?_, ?_, ?_⟩
  · simp [Bytes.SetValid]
  · simp [Bytes.SetValid, GoBytes.len]
  · simp [Bytes.MarshalJSON, hv]
  · simp [Bytes.MarshalJSON, hv, he]
  · simp [Bytes.MarshalJSON, hv]
    rcases hb : b.bytes with _ | l
    · simp
    · have : l.length = 0 := by simpa [GoBytes.len, hb] using he
      simp [List.length_eq_zero.mp this, nullLiteral]

/-- C10, witness for `c10_valid_empty_marshal` at the concrete valid
holder with nil data. -/
theorem c10_valid_empty_marshal_witness :
    (NewBytes none true).valid = true ∧
    (NewBytes none true).bytes.len = 0 ∧
    ((NewBytes (some [7]) false).SetValid none).valid = true ∧
    ((NewBytes (some [7]) false).SetValid none).bytes.len = 0 ∧
    (NewBytes none true).MarshalJSON = ((NewBytes none true).bytes, none) ∧
    (NewBytes none true).MarshalJSON.1.len = 0 ∧
    (NewBytes none true).MarshalJSON.1 ≠ some nullLiteral :=
  c10_valid_empty_marshal (NewBytes none true) (NewBytes (some [7]) false) rfl rfl
